import Mathlib

set_option maxRecDepth 20000

/-!
Shallow embedding of the client-side request orchestrator of the `aitutuor`
repository (single React component, `src/unnamed/part_000`): the endpoint
resolver `resolveWebhookUrlClientSafe`, the validity predicate
`isWebhookLikelyValid`, the submit handler `handleSubmit`, the ping handler
`handlePing`, and the markdown renderer `renderMarkdown` with `escapeHtml`.

JavaScript strings are `String`, nullable strings are `Option String`, and
JS truthiness on a string value (`undefined`/`null`/`""` are falsy) is the
filter `truthyStr`. The browser ambient state read by the resolver is the
explicit snapshot `Env`.
-/

/-- JS truthiness filter for a possibly-absent string: `null`/`undefined`
and the empty string are falsy, every other string is kept. -/
def truthyStr : Option String → Option String
  | none => none
  | some s => if s.isEmpty then none else some s

/-- The fields of `window` read by the component: `?webhook=` query
parameter, the `localStorage` key `n8n_webhook_url`, and the injected
global `__N8N_WEBHOOK_URL__`. -/
structure Window where
  queryParam : Option String
  storedUrl : Option String
  injectedGlobal : Option String

/-- The two bundler variables read from `import.meta.env`. -/
structure MetaEnv where
  viteUrl : Option String
  nextPublicUrl : Option String

/-- An environment snapshot: `window` (absent outside a browser),
`import.meta.env` (absent outside a bundler), and
`process.env.NEXT_PUBLIC_N8N_WEBHOOK_URL` (absent outside Next.js). -/
structure Env where
  window : Option Window
  metaEnv : Option MetaEnv
  processEnvUrl : Option String

/-- `const DEFAULT_WEBHOOK_FALLBACK = "https://YOUR-N8N-DOMAIN/webhook/ai-agent"`. -/
def DEFAULT_WEBHOOK_FALLBACK : String := "https://YOUR-N8N-DOMAIN/webhook/ai-agent"

/-- JS `a || b` on possibly-absent strings: the left value if truthy,
otherwise the right value unchanged. -/
def jsOrOpt (a b : Option String) : Option String :=
  match truthyStr a with
  | some s => some s
  | none => b

/-- `resolveWebhookUrlClientSafe` from the source: six prioritized reads,
each guarded by a JS truthiness test, falling back to the placeholder. -/
def resolveWebhookUrlClientSafe (env : Env) : String :=
  match truthyStr (env.window.bind Window.queryParam) with
  | some qp => qp
  | none =>
    match truthyStr (env.window.bind Window.storedUrl) with
    | some ls => ls
    | none =>
      match truthyStr (env.window.bind Window.injectedGlobal) with
      | some g => g
      | none =>
        match truthyStr (jsOrOpt (env.metaEnv.bind MetaEnv.viteUrl)
            (env.metaEnv.bind MetaEnv.nextPublicUrl)) with
        | some v => v
        | none =>
          match truthyStr env.processEnvUrl with
          | some p => p
          | none => DEFAULT_WEBHOOK_FALLBACK

/-- The configuration sources in the spec's priority order, the bundler
variable flattened into its two alternate names (checked Vite-name first,
as in the source's `||`). -/
def specSources (env : Env) : List (Option String) :=
  [ env.window.bind Window.queryParam
  , env.window.bind Window.storedUrl
  , env.window.bind Window.injectedGlobal
  , env.metaEnv.bind MetaEnv.viteUrl
  , env.metaEnv.bind MetaEnv.nextPublicUrl
  , env.processEnvUrl ]

/-- The value of the highest-priority non-empty source of a list, if any. -/
def firstNonEmptySrc : List (Option String) → Option String
  | [] => none
  | o :: rest =>
    match truthyStr o with
    | some s => some s
    | none => firstNonEmptySrc rest

/-- The `useEffect` that persists the webhook URL: writes the value to the
`localStorage` key when it is truthy and a `window` exists. -/
def persistWebhookUrl (env : Env) (url : String) : Env :=
  if url.isEmpty then env
  else
    match env.window with
    | some w => { env with window := some { w with storedUrl := some url } }
    | none => env

/-- The caller's configuration-incomplete test on the resolved value:
`!resolved || resolved === DEFAULT_WEBHOOK_FALLBACK`. -/
def shouldShowConfigNotice (resolved : String) : Bool :=
  resolved.isEmpty || resolved == DEFAULT_WEBHOOK_FALLBACK

/-- Case-insensitive single-character match of a subject character against
a lower-case pattern character (the regex `i` flag). -/
def lowEq (c p : Char) : Bool := c.toLower == p

/-- Case-insensitive match of a lower-case literal pattern against the
start of a character list. -/
def matchChars : List Char → List Char → Bool
  | [], _ => true
  | _ :: _, [] => false
  | p :: ps, c :: cs => lowEq c p && matchChars ps cs

/-- `isWebhookLikelyValid`: the test `/^https?:\/\//i.test(webhookUrl)`,
the optional greedy `s?` branch tried first. -/
def isWebhookLikelyValid (url : String) : Bool :=
  matchChars "https://".data url.data || matchChars "http://".data url.data

/- ### Helper lemmas about the resolver -/

theorem truthyStr_some_ne_empty {o : Option String} {s : String}
    (h : truthyStr o = some s) : s.isEmpty = false := by
  cases o with
  | none => simp [truthyStr] at h
  | some t =>
    by_cases ht : t.isEmpty <;> simp [truthyStr, ht] at h
    subst h; simpa using ht

theorem truthyStr_jsOrOpt (a b : Option String) :
    truthyStr (jsOrOpt a b) =
      match truthyStr a with
      | some s => some s
      | none => truthyStr b := by
  cases h : truthyStr a with
  | some s =>
    have hs := truthyStr_some_ne_empty h
    unfold jsOrOpt
    rw [h]
    simp [truthyStr, hs]
  | none =>
    unfold jsOrOpt
    rw [h]

/-- The resolver equals first-non-empty over the flattened priority list,
with the placeholder as final fallback. Shared by several claims. -/
theorem resolve_eq_firstNonEmpty (env : Env) :
    resolveWebhookUrlClientSafe env =
      (firstNonEmptySrc (specSources env)).getD DEFAULT_WEBHOOK_FALLBACK := by
  unfold resolveWebhookUrlClientSafe specSources firstNonEmptySrc
  rw [truthyStr_jsOrOpt]
  cases h1 : truthyStr (env.window.bind Window.queryParam) <;>
    cases h2 : truthyStr (env.window.bind Window.storedUrl) <;>
      cases h3 : truthyStr (env.window.bind Window.injectedGlobal) <;>
        cases h4 : truthyStr (env.metaEnv.bind MetaEnv.viteUrl) <;>
          cases h5 : truthyStr (env.metaEnv.bind MetaEnv.nextPublicUrl) <;>
            cases h6 : truthyStr env.processEnvUrl <;>
              simp [firstNonEmptySrc, h1, h2, h3, h4, h5, h6]

/- ### Spec-side formulation of the validity predicate (for C5) -/

/-- Spec wording for C5: case-insensitive prefix comparison, lowering BOTH
sides character by character. -/
def ciPre : List Char → List Char → Bool
  | [], _ => true
  | _ :: _, [] => false
  | p :: ps, c :: cs => (c.toLower == p.toLower) && ciPre ps cs

/-- Spec wording for C5: `s` starts with `p` compared case-insensitively. -/
def startsWithCI (s p : String) : Bool := ciPre p.data s.data

theorem matchChars_eq_ciPre (ps : List Char) (h : ∀ p ∈ ps, p.toLower = p)
    (cs : List Char) : matchChars ps cs = ciPre ps cs := by
  induction ps generalizing cs with
  | nil => cases cs <;> rfl
  | cons p ps ih =>
    cases cs with
    | nil => rfl
    | cons c cs =>
      have hp : p.toLower = p := h p (by simp)
      have hps : ∀ q ∈ ps, q.toLower = q := fun q hq => h q (by simp [hq])
      simp [matchChars, ciPre, lowEq, hp, ih hps cs]

/- ### Claim theorems: endpoint resolver and validity -/

/-- C1: for every environment snapshot, `resolveWebhookUrlClientSafe`
returns the value of the highest-priority non-empty configuration source in
the fixed order query-param, durable storage, injected global, bundler
variable (Vite name then Next name), platform build-time variable, with the
hard-coded placeholder as final fallback. -/
theorem c1_resolver_priority (env : Env) :
    resolveWebhookUrlClientSafe env =
      (firstNonEmptySrc (specSources env)).getD DEFAULT_WEBHOOK_FALLBACK :=
  resolve_eq_firstNonEmpty env

/-- C5: `isWebhookLikelyValid url` is true iff `url` starts with
`http://` or `https://` compared case-insensitively, and the empty string
is rejected. -/
theorem c5_validity_iff (url : String) :
    (isWebhookLikelyValid url = true ↔
      (startsWithCI url "http://" = true ∨ startsWithCI url "https://" = true)) ∧
    isWebhookLikelyValid "" = false := by
  constructor
  · unfold isWebhookLikelyValid startsWithCI
    rw [matchChars_eq_ciPre _ (by decide) url.data,
      matchChars_eq_ciPre _ (by decide) url.data]
    constructor
    · intro hor
      rcases Bool.or_eq_true_iff.mp hor with h | h
      · exact Or.inr h
      · exact Or.inl h
    · intro hor
      rcases hor with h | h
      · exact Bool.or_eq_true_iff.mpr (Or.inr h)
      · exact Bool.or_eq_true_iff.mpr (Or.inl h)
  · decide

/-- C9: when no configuration source provides a non-empty value, the
resolver returns the placeholder fallback; the caller's notice test holds
on the resolved value, and it holds on an arbitrary string exactly when
that string is empty or equals the placeholder. -/
theorem c9_fallback_notice (env : Env) (s : String)
    (h : firstNonEmptySrc (specSources env) = none) :
    resolveWebhookUrlClientSafe env = DEFAULT_WEBHOOK_FALLBACK ∧
    shouldShowConfigNotice (resolveWebhookUrlClientSafe env) = true ∧
    (shouldShowConfigNotice s = true ↔
      (s.isEmpty = true ∨ s = DEFAULT_WEBHOOK_FALLBACK)) := by
  have h1 : resolveWebhookUrlClientSafe env = DEFAULT_WEBHOOK_FALLBACK := by
    rw [resolve_eq_firstNonEmpty, h]; rfl
  refine ⟨h1, ?_, ?_⟩
  · rw [h1]; decide
  · simp [shouldShowConfigNotice]

/-- An environment with no window, no bundler variables and no process
variable. -/
def envAllEmpty : Env := { window := none, metaEnv := none, processEnvUrl := none }

/-- Witness for C9 at the all-empty environment. -/
theorem c9_fallback_notice_witness :
    resolveWebhookUrlClientSafe envAllEmpty = DEFAULT_WEBHOOK_FALLBACK ∧
    shouldShowConfigNotice (resolveWebhookUrlClientSafe envAllEmpty) = true ∧
    (shouldShowConfigNotice "x" = true ↔
      ("x".isEmpty = true ∨ "x" = DEFAULT_WEBHOOK_FALLBACK)) :=
  c9_fallback_notice envAllEmpty "x" rfl

/-- C10: persisting a valid URL to durable storage and then resolving in an
environment whose query parameter and injected global are empty returns
that same URL (from the durable-storage source). -/
theorem c10_roundtrip (env : Env) (w : Window) (url : String)
    (hw : env.window = some w)
    (hq : truthyStr w.queryParam = none)
    (hg : truthyStr w.injectedGlobal = none)
    (hv : isWebhookLikelyValid url = true) :
    resolveWebhookUrlClientSafe (persistWebhookUrl env url) = url := by
  have hne : url.isEmpty = false := by
    by_cases he : url.isEmpty = true
    · exfalso
      have : url = "" := (String.isEmpty_iff url).mp he
      rw [this] at hv
      simp [isWebhookLikelyValid, matchChars] at hv
    · simpa using he
  obtain ⟨q, st, g⟩ := w
  have hq' : truthyStr q = none := hq
  simp only [persistWebhookUrl, hne, Bool.false_eq_true, if_false, hw]
  simp only [resolveWebhookUrlClientSafe, Option.bind_some, Option.some_bind]
  rw [hq']
  simp [truthyStr, hne]

/-- An environment whose window has no query parameter, no stored value and
no injected global. -/
def envBareWindow : Env :=
  { window := some { queryParam := none, storedUrl := none, injectedGlobal := none }
  , metaEnv := none, processEnvUrl := none }

/-- Witness for C10 at a concrete valid URL. -/
theorem c10_roundtrip_witness :
    resolveWebhookUrlClientSafe
        (persistWebhookUrl envBareWindow "http://example.com/hook")
      = "http://example.com/hook" :=
  c10_roundtrip envBareWindow
    { queryParam := none, storedUrl := none, injectedGlobal := none }
    "http://example.com/hook" rfl rfl rfl (by decide)

/- ### JSON values and response parsing -/

/-- A JSON value, as produced by `res.json()`. -/
inductive Json where
  | null
  | bool (b : Bool)
  | num (n : Int)
  | str (s : String)
  | arr (elems : List Json)
  | obj (fields : List (String × Json))

/-- Field lookup on a JSON value: `undefined` (`none`) on non-objects and
missing keys. -/
def Json.getField : Json → String → Option Json
  | Json.obj fields, k => lookupField fields k
  | _, _ => none
where lookupField : List (String × Json) → String → Option Json
  | [], _ => none
  | (k', v) :: rest, k => if k' = k then some v else lookupField rest k

/-- JS truthiness of a JSON value. -/
def jsTruthy : Json → Bool
  | Json.null => false
  | Json.bool b => b
  | Json.num n => n != 0
  | Json.str s => !s.isEmpty
  | Json.arr _ => true
  | Json.obj _ => true

/-- `json.answer_markdown || ""`: the field's value if present and truthy,
otherwise the empty string. -/
def answerFromJson (j : Json) : Json :=
  match j.getField "answer_markdown" with
  | some v => if jsTruthy v then v else Json.str ""
  | none => Json.str ""

/-- `Array.isArray(json.files) ? json.files : []`. -/
def filesFromJson (j : Json) : List Json :=
  match j.getField "files" with
  | some (Json.arr xs) => xs
  | _ => []

/- ### Request submitter -/

/-- `res.ok`: HTTP status in the 2xx range (fetch: 200-299). -/
def resOk (status : Nat) : Bool := 200 ≤ status && status < 300

/-- JS `e?.message || default` on a caught error's possibly-absent message. -/
def jsOrMsg (m : Option String) (d : String) : String :=
  match m with
  | some s => if s.isEmpty then d else s
  | none => d

/-- The submit timeout: `setTimeout(() => controller.abort(), 60_000)`. -/
def submitTimeoutMs : Nat := 60000

/-- Behavior of the underlying network call, with the wall-clock
milliseconds until it would settle. -/
inductive NetOutcome where
  | never
  | failsAfter (ms : Nat) (msg : Option String)
  | respondsAfter (ms : Nat) (status : Nat) (bodyText : String) (bodyJson : Json)

/-- Whether the underlying call settles within `t` milliseconds. -/
def completesWithin (o : NetOutcome) (t : Nat) : Bool :=
  match o with
  | NetOutcome.never => false
  | NetOutcome.failsAfter ms _ => ms ≤ t
  | NetOutcome.respondsAfter ms _ _ _ => ms ≤ t

/-- What `await fetch` yields under the abort timer. -/
inductive FetchResult where
  | aborted
  | failed (msg : Option String)
  | settled (status : Nat) (bodyText : String) (bodyJson : Json)

/-- `fetch` raced against the 60-second abort timer: if the call has not
settled when the timer fires, the controller aborts it and the await
rejects with an `AbortError`; otherwise the timer is cleared and the call's
own outcome surfaces. -/
def fetchWithTimeout (o : NetOutcome) : FetchResult :=
  if completesWithin o submitTimeoutMs then
    match o with
    | NetOutcome.never => FetchResult.aborted
    | NetOutcome.failsAfter _ m => FetchResult.failed m
    | NetOutcome.respondsAfter _ s t j => FetchResult.settled s t j
  else FetchResult.aborted

/-- The error message of `handleSubmit`'s `AbortError` branch. -/
def timeoutErrorMsg : String := "Request timed out after 60s. Try again or check your n8n logs."

/-- The error message of `handleSubmit`'s invalid-webhook early return. -/
def invalidWebhookMsg : String := "Invalid or missing webhook URL. Open Settings to configure."

/-- The thrown message for a non-2xx submit response:
`Upstream error ${res.status}: ${t}`. -/
def upstreamErrorMsg (status : Nat) (bodyText : String) : String :=
  "Upstream error " ++ (toString status ++ (": " ++ bodyText))

/-- The component state written by `handleSubmit`, plus a flag recording
whether `fetch` was invoked at all. -/
structure SubmitState where
  loading : Bool
  error : Option String
  answer : Json
  files : List Json
  networkCalled : Bool

/-- `handleSubmit` from the source: reset state, fail fast on an invalid
webhook URL without calling `fetch`, otherwise POST with the 60-second
abort timer, throw on non-2xx, and on success extract the answer and the
file list with their defaults. -/
def handleSubmit (webhookUrl : String) (net : NetOutcome) : SubmitState :=
  if !(isWebhookLikelyValid webhookUrl) then
    { loading := false, error := some invalidWebhookMsg
    , answer := Json.str "", files := [], networkCalled := false }
  else
    match fetchWithTimeout net with
    | FetchResult.aborted =>
      { loading := false, error := some timeoutErrorMsg
      , answer := Json.str "", files := [], networkCalled := true }
    | FetchResult.failed m =>
      { loading := false, error := some (jsOrMsg m "Request failed")
      , answer := Json.str "", files := [], networkCalled := true }
    | FetchResult.settled status bodyText bodyJson =>
      if resOk status then
        { loading := false, error := none
        , answer := answerFromJson bodyJson, files := filesFromJson bodyJson
        , networkCalled := true }
      else
        { loading := false, error := some (jsOrMsg (some (upstreamErrorMsg status bodyText)) "Request failed")
        , answer := Json.str "", files := [], networkCalled := true }

/- ### Reachability prober -/

/-- The four ping states of the component. -/
inductive PingStatus where
  | idle
  | running
  | ok
  | fail
deriving DecidableEq

/-- The component state written by `handlePing`, plus a flag recording
whether `fetch` was invoked at all. -/
structure PingState where
  pingStatus : PingStatus
  error : Option String
  networkCalled : Bool

/-- Behavior of the ping's network call (no abort timer is attached). -/
inductive PingNet where
  | fails (msg : Option String)
  | responds (status : Nat)

/-- The error message of `handlePing`'s invalid-webhook early return. -/
def pingInvalidMsg : String := "Webhook URL invalid. Fix in Settings."

/-- The thrown message for a non-2xx ping response: `Ping failed: ${res.status}`. -/
def pingFailedMsg (status : Nat) : String := "Ping failed: " ++ toString status

/-- `handlePing` from the source: fail fast on an invalid webhook URL
without calling `fetch`; otherwise POST the diagnostic body; 2xx yields
`ok`, a non-2xx status or a network failure yields `fail` with the error
message surfaced through `e?.message || "Ping failed"`. -/
def handlePing (webhookUrl : String) (net : PingNet) : PingState :=
  if !(isWebhookLikelyValid webhookUrl) then
    { pingStatus := PingStatus.fail, error := some pingInvalidMsg, networkCalled := false }
  else
    match net with
    | PingNet.fails m =>
      { pingStatus := PingStatus.fail, error := some (jsOrMsg m "Ping failed")
      , networkCalled := true }
    | PingNet.responds status =>
      if resOk status then
        { pingStatus := PingStatus.ok, error := none, networkCalled := true }
      else
        { pingStatus := PingStatus.fail
        , error := some (jsOrMsg (some (pingFailedMsg status)) "Ping failed")
        , networkCalled := true }

/- ### Substring search (for stating message properties) -/

/-- `p` is a literal prefix of `l`. -/
def listHasPre : List Char → List Char → Bool
  | [], _ => true
  | _ :: _, [] => false
  | p :: ps, c :: cs => p == c && listHasPre ps cs

/-- `p` occurs as a contiguous sublist of `l`. -/
def listHasSub (p l : List Char) : Bool :=
  listHasPre p l ||
    match l with
    | [] => false
    | _ :: ls => listHasSub p ls

/-- `pat` occurs as a substring of `s`. -/
def containsSub (s pat : String) : Bool := listHasSub pat.data s.data

/- ### Helper lemmas about the handler messages -/

theorem isEmpty_append_left (a x : String) (ha : a.isEmpty = false) :
    (a ++ x).isEmpty = false := by
  cases h : (a ++ x).isEmpty with
  | false => rfl
  | true =>
    exfalso
    have he : a ++ x = "" := (String.isEmpty_iff (a ++ x)).mp h
    have hd := congrArg String.data he
    rw [String.data_append] at hd
    have hnil : a.data = [] := (List.append_eq_nil.mp hd).1
    have hae : a = "" := String.ext hnil
    rw [hae] at ha
    exact absurd ha (by decide)

theorem upstream_ne_timeout (x : String) :
    ("Upstream error " ++ x) ≠ timeoutErrorMsg := by
  intro h
  have hd : ("Upstream error " ++ x).data.headD ' '
      = timeoutErrorMsg.data.headD ' ' := by rw [h]
  rw [String.data_append] at hd
  have hL : ("Upstream error ".data ++ x.data).headD ' ' = 'U' := rfl
  have hR : timeoutErrorMsg.data.headD ' ' = 'R' := rfl
  rw [hL, hR] at hd
  exact absurd hd (by decide)

/- ### Claim theorems: request submitter and reachability prober -/

/-- C2: when the network call does not settle within the 60-second budget,
the abort timer cancels the in-flight request (`fetchWithTimeout` yields
`aborted`), and `handleSubmit` reports the fixed timeout message, which
contains "timed out" and differs both from every non-2xx upstream error
message and from the default network-failure message. -/
theorem c2_timeout_distinct (url : String) (net : NetOutcome) (status : Nat)
    (bodyText : String) (bodyJson : Json)
    (hv : isWebhookLikelyValid url = true)
    (hnc : completesWithin net submitTimeoutMs = false)
    (hbad : resOk status = false) :
    fetchWithTimeout net = FetchResult.aborted ∧
    (handleSubmit url net).error = some timeoutErrorMsg ∧
    (handleSubmit url net).networkCalled = true ∧
    containsSub timeoutErrorMsg "timed out" = true ∧
    (handleSubmit url (NetOutcome.respondsAfter 0 status bodyText bodyJson)).error
      = some (upstreamErrorMsg status bodyText) ∧
    upstreamErrorMsg status bodyText ≠ timeoutErrorMsg ∧
    (handleSubmit url (NetOutcome.failsAfter 0 none)).error = some "Request failed" ∧
    ("Request failed" : String) ≠ timeoutErrorMsg := by
  have habort : fetchWithTimeout net = FetchResult.aborted := by
    unfold fetchWithTimeout
    rw [hnc]
    simp
  have hupne : upstreamErrorMsg status bodyText ≠ timeoutErrorMsg :=
    upstream_ne_timeout (toString status ++ (": " ++ bodyText))
  have hupnonempty : (upstreamErrorMsg status bodyText).isEmpty = false :=
    isEmpty_append_left "Upstream error " _ (by decide)
  refine ⟨habort, ?_, ?_, by decide, ?_, hupne, ?_, by decide⟩
  · simp only [handleSubmit, hv, habort]
    rfl
  · simp only [handleSubmit, hv, habort]
    rfl
  · simp only [handleSubmit, hv]
    simp only [fetchWithTimeout, completesWithin, submitTimeoutMs]
    simp only [show (0 ≤ 60000) = True by simp, if_true, Bool.not_true]
    simp [hbad, jsOrMsg, hupnonempty]
  · simp only [handleSubmit, hv]
    rfl

/-- Witness for C2: a request that never settles, against a 500 response. -/
theorem c2_timeout_distinct_witness :
    fetchWithTimeout NetOutcome.never = FetchResult.aborted ∧
    (handleSubmit "http://a" NetOutcome.never).error = some timeoutErrorMsg ∧
    (handleSubmit "http://a" NetOutcome.never).networkCalled = true ∧
    containsSub timeoutErrorMsg "timed out" = true ∧
    (handleSubmit "http://a" (NetOutcome.respondsAfter 0 500 "boom" Json.null)).error
      = some (upstreamErrorMsg 500 "boom") ∧
    upstreamErrorMsg 500 "boom" ≠ timeoutErrorMsg ∧
    (handleSubmit "http://a" (NetOutcome.failsAfter 0 none)).error = some "Request failed" ∧
    ("Request failed" : String) ≠ timeoutErrorMsg :=
  c2_timeout_distinct "http://a" NetOutcome.never 500 "boom" Json.null
    (by decide) rfl (by decide)

/-- C6: on an invalid endpoint both handlers fail fast with a descriptive
error and never invoke `fetch`. -/
theorem c6_fail_fast (url : String) (net : NetOutcome) (png : PingNet)
    (h : isWebhookLikelyValid url = false) :
    (handleSubmit url net).networkCalled = false ∧
    (handleSubmit url net).error = some invalidWebhookMsg ∧
    (handlePing url png).networkCalled = false ∧
    (handlePing url png).pingStatus = PingStatus.fail ∧
    (handlePing url png).error = some pingInvalidMsg := by
  simp [handleSubmit, handlePing, h]

/-- Witness for C6 at a non-HTTP endpoint string. -/
theorem c6_fail_fast_witness :
    (handleSubmit "ftp://x" NetOutcome.never).networkCalled = false ∧
    (handleSubmit "ftp://x" NetOutcome.never).error = some invalidWebhookMsg ∧
    (handlePing "ftp://x" (PingNet.responds 200)).networkCalled = false ∧
    (handlePing "ftp://x" (PingNet.responds 200)).pingStatus = PingStatus.fail ∧
    (handlePing "ftp://x" (PingNet.responds 200)).error = some pingInvalidMsg :=
  c6_fail_fast "ftp://x" NetOutcome.never (PingNet.responds 200) (by decide)

theorem handleSubmit_ok (url : String) (status : Nat) (t : String) (j : Json)
    (hv : isWebhookLikelyValid url = true) (hok : resOk status = true) :
    handleSubmit url (NetOutcome.respondsAfter 0 status t j) =
      { loading := false, error := none, answer := answerFromJson j
      , files := filesFromJson j, networkCalled := true } := by
  simp [handleSubmit, hv, fetchWithTimeout, completesWithin, submitTimeoutMs, hok]

/-- C7: a missing `answer_markdown` defaults to the empty string, a missing
or non-array `files` defaults to the empty list, and the concrete body
with only `answer_markdown: "hi"` yields answer `"hi"`, no attachments and
no error. -/
theorem c7_response_defaults (url : String) (j1 j2 : Json)
    (hv : isWebhookLikelyValid url = true)
    (ha : j1.getField "answer_markdown" = none)
    (hf : ∀ xs, j2.getField "files" ≠ some (Json.arr xs)) :
    answerFromJson j1 = Json.str "" ∧
    filesFromJson j2 = [] ∧
    (handleSubmit url (NetOutcome.respondsAfter 0 200 "" j1)).answer = Json.str "" ∧
    (handleSubmit url (NetOutcome.respondsAfter 0 200 "" j2)).files = [] ∧
    (handleSubmit url (NetOutcome.respondsAfter 0 200 ""
        (Json.obj [("answer_markdown", Json.str "hi")]))).answer = Json.str "hi" ∧
    (handleSubmit url (NetOutcome.respondsAfter 0 200 ""
        (Json.obj [("answer_markdown", Json.str "hi")]))).files = [] ∧
    (handleSubmit url (NetOutcome.respondsAfter 0 200 ""
        (Json.obj [("answer_markdown", Json.str "hi")]))).error = none := by
  have hans : answerFromJson j1 = Json.str "" := by
    unfold answerFromJson
    rw [ha]
  have hfiles : filesFromJson j2 = [] := by
    unfold filesFromJson
    cases hg : j2.getField "files" with
    | none => rfl
    | some v =>
      cases v with
      | arr xs => exact absurd hg (hf xs)
      | null => rfl
      | bool b => rfl
      | num n => rfl
      | str s => rfl
      | obj fields => rfl
  have hok : resOk 200 = true := by decide
  refine ⟨hans, hfiles, ?_, ?_, ?_, ?_, ?_⟩
  · rw [handleSubmit_ok url 200 "" j1 hv hok]
    exact hans
  · rw [handleSubmit_ok url 200 "" j2 hv hok]
    exact hfiles
  · rw [handleSubmit_ok url 200 "" _ hv hok]
    rfl
  · rw [handleSubmit_ok url 200 "" _ hv hok]
    rfl
  · rw [handleSubmit_ok url 200 "" _ hv hok]

/-- Witness for C7 at an empty object and a null body. -/
theorem c7_response_defaults_witness :
    answerFromJson (Json.obj []) = Json.str "" ∧
    filesFromJson Json.null = [] ∧
    (handleSubmit "http://a" (NetOutcome.respondsAfter 0 200 "" (Json.obj []))).answer
      = Json.str "" ∧
    (handleSubmit "http://a" (NetOutcome.respondsAfter 0 200 "" Json.null)).files = [] ∧
    (handleSubmit "http://a" (NetOutcome.respondsAfter 0 200 ""
        (Json.obj [("answer_markdown", Json.str "hi")]))).answer = Json.str "hi" ∧
    (handleSubmit "http://a" (NetOutcome.respondsAfter 0 200 ""
        (Json.obj [("answer_markdown", Json.str "hi")]))).files = [] ∧
    (handleSubmit "http://a" (NetOutcome.respondsAfter 0 200 ""
        (Json.obj [("answer_markdown", Json.str "hi")]))).error = none :=
  c7_response_defaults "http://a" (Json.obj []) Json.null (by decide) rfl
    (fun xs h => Option.noConfusion h)

/-- C8: against a valid endpoint a 2xx ping yields `ok`; a non-2xx status
yields `fail` with the status embedded in the surfaced message; a network
failure yields `fail` with its message surfaced; HTTP 500 in particular
surfaces a message containing "500". -/
theorem c8_ping_status (url : String) (sGood sBad : Nat) (m : Option String)
    (hv : isWebhookLikelyValid url = true)
    (h1 : resOk sGood = true) (h2 : resOk sBad = false) :
    (handlePing url (PingNet.responds sGood)).pingStatus = PingStatus.ok ∧
    (handlePing url (PingNet.responds sGood)).error = none ∧
    (handlePing url (PingNet.responds sBad)).pingStatus = PingStatus.fail ∧
    (handlePing url (PingNet.responds sBad)).error = some (pingFailedMsg sBad) ∧
    (handlePing url (PingNet.fails m)).pingStatus = PingStatus.fail ∧
    (handlePing url (PingNet.fails m)).error = some (jsOrMsg m "Ping failed") ∧
    (handlePing url (PingNet.responds 500)).pingStatus = PingStatus.fail ∧
    (handlePing url (PingNet.responds 500)).error = some "Ping failed: 500" ∧
    containsSub "Ping failed: 500" "500" = true := by
  have hnonempty : (pingFailedMsg sBad).isEmpty = false :=
    isEmpty_append_left "Ping failed: " _ (by decide)
  have h500 : pingFailedMsg 500 = "Ping failed: 500" := by decide
  refine ⟨?_, ?_, ?_, ?_, ?_, ?_, ?_, ?_, by decide⟩
  · simp [handlePing, hv, h1]
  · simp [handlePing, hv, h1]
  · simp [handlePing, hv, h2]
  · simp [handlePing, hv, h2, jsOrMsg, hnonempty]
  · simp [handlePing, hv]
  · simp [handlePing, hv]
  · simp only [handlePing, hv]
    rfl
  · simp only [handlePing, hv]
    rfl

/-- Witness for C8 at statuses 204 and 404. -/
theorem c8_ping_status_witness :
    (handlePing "http://a" (PingNet.responds 204)).pingStatus = PingStatus.ok ∧
    (handlePing "http://a" (PingNet.responds 204)).error = none ∧
    (handlePing "http://a" (PingNet.responds 404)).pingStatus = PingStatus.fail ∧
    (handlePing "http://a" (PingNet.responds 404)).error = some (pingFailedMsg 404) ∧
    (handlePing "http://a" (PingNet.fails (some "boom"))).pingStatus = PingStatus.fail ∧
    (handlePing "http://a" (PingNet.fails (some "boom"))).error
      = some (jsOrMsg (some "boom") "Ping failed") ∧
    (handlePing "http://a" (PingNet.responds 500)).pingStatus = PingStatus.fail ∧
    (handlePing "http://a" (PingNet.responds 500)).error = some "Ping failed: 500" ∧
    containsSub "Ping failed: 500" "500" = true :=
  c8_ping_status "http://a" 204 404 (some "boom") (by decide) (by decide) (by decide)

/- ### Markdown renderer -/

/-- The backtick character (code 96). -/
def tickChar : Char := Char.ofNat 96

/-- One global-replace scan, the semantics of a JS `replace(/.../g, ...)`:
at each position try the matcher; on a match emit its replacement and
continue after the consumed source characters (replacements are not
rescanned), otherwise copy one character and move on. The fuel is
instantiated with the input length; every matcher below consumes at least
one character on a match, so the fuel never runs out. -/
def gReplace (m : List Char → Option (List Char × List Char)) :
    Nat → List Char → List Char
  | _, [] => []
  | 0, l => l
  | fuel + 1, c :: cs =>
    match m (c :: cs) with
    | some (rep, rest) => rep ++ gReplace m fuel rest
    | none => c :: gReplace m fuel cs

/-- Matcher for a literal pattern: matches iff the pattern is a prefix. -/
def litMatch (pat rep l : List Char) : Option (List Char × List Char) :=
  if listHasPre pat l then some (rep, l.drop pat.length) else none

/-- A whole `replaceAll(pat, rep)` pass. -/
def replaceAllChars (pat rep l : List Char) : List Char :=
  gReplace (litMatch pat rep) l.length l

/-- `escapeHtml` from the source: three sequential `replaceAll` passes for
`&`, `<`, `>`, in that order. -/
def escapeHtmlChars (l : List Char) : List Char :=
  replaceAllChars ['>'] "&gt;".data
    (replaceAllChars ['<'] "&lt;".data
      (replaceAllChars ['&'] "&amp;".data l))

/-- `escapeHtml` on strings. -/
def escapeHtml (s : String) : String := String.mk (escapeHtmlChars s.data)

/-- The JS word character class of the language-tag capture. -/
def isWordChar (c : Char) : Bool := c.isAlphanum || c == '_'

/-- Three backticks at the head of the list. -/
def startsTicks : List Char → Bool
  | a :: b :: c :: _ => a == tickChar && b == tickChar && c == tickChar
  | _ => false

/-- Maximal run of word characters at the head, and the remainder. -/
def takeWord : List Char → List Char × List Char
  | [] => ([], [])
  | c :: cs =>
    if isWordChar c then
      ((takeWord cs).1.cons c, (takeWord cs).2)
    else ([], c :: cs)

/-- Lazy body scan of the code-fence regex: the characters before the
first closing triple backtick, and the remainder after it. -/
def findClose : List Char → Option (List Char × List Char)
  | [] => none
  | c :: cs =>
    if startsTicks (c :: cs) then some ([], cs.drop 2)
    else
      match findClose cs with
      | some (body, rest) => some (c :: body, rest)
      | none => none

/-- Opening of the block-level code container emitted for a fence. -/
def preOpenTag : String :=
  "<pre class=\"bg-gray-900 text-gray-100 p-4 rounded-2xl overflow-x-auto\"><code>"

/-- Closing of the block-level code container. -/
def preCloseTag : String := "</code></pre>"

/-- Matcher for substitution 1 of `renderMarkdown`: triple backtick, an
optional word-character language tag (captured but unused), a newline,
then the lazy body up to the next triple backtick; the replacement embeds
the HTML-escaped body in the code container. -/
def fenceMatch (l : List Char) : Option (List Char × List Char) :=
  if startsTicks l then
    match (takeWord (l.drop 3)).2 with
    | c :: r2 =>
      if c = '\n' then
        match findClose r2 with
        | some (code, rest) =>
          some (preOpenTag.data ++ escapeHtmlChars code ++ preCloseTag.data, rest)
        | none => none
      else none
    | [] => none
  else none

/-- Split on newlines, keeping empty segments (never returns `[]`). -/
def splitLines : List Char → List (List Char)
  | [] => [[]]
  | c :: cs =>
    if c = '\n' then [] :: splitLines cs
    else
      match splitLines cs with
      | ln :: rest => (c :: ln) :: rest
      | [] => [[c]]

/-- Rejoin lines with newlines. -/
def joinLines : List (List Char) → List Char
  | [] => []
  | [ln] => ln
  | ln :: rest => ln ++ '\n' :: joinLines rest

/-- One heading line: the `m`-flagged anchored regex consumes a marker at
the line start and wraps the remainder of the line. -/
def headingLine (marker openT closeT ln : List Char) : List Char :=
  if listHasPre marker ln then openT ++ (ln.drop marker.length) ++ closeT else ln

/-- A heading substitution (`gim`-flagged, anchored at line starts and
consuming whole lines, hence exactly a line-wise map). -/
def headingPass (marker openT closeT l : List Char) : List Char :=
  joinLines ((splitLines l).map (headingLine marker openT closeT))

/-- Heading tags of substitutions 2-4. -/
def h1OpenTag : String := "<h1 class=\"text-2xl font-semibold mb-2\">"

/-- Closing tag for level-1 headings. -/
def h1CloseTag : String := "</h1>"

/-- Opening tag for level-2 headings. -/
def h2OpenTag : String := "<h2 class=\"text-xl font-semibold mt-4 mb-2\">"

/-- Closing tag for level-2 headings. -/
def h2CloseTag : String := "</h2>"

/-- Opening tag for level-3 headings. -/
def h3OpenTag : String := "<h3 class=\"text-lg font-semibold mt-3 mb-2\">"

/-- Closing tag for level-3 headings. -/
def h3CloseTag : String := "</h3>"

/-- Two stars at the head of the list. -/
def startsStars2 : List Char → Bool
  | a :: b :: _ => a == '*' && b == '*'
  | _ => false

/-- Lazy scan of the strong-emphasis body: the shortest run of non-newline
characters up to a closing double star. -/
def scanStrong : List Char → Option (List Char × List Char)
  | [] => none
  | c :: cs =>
    if startsStars2 (c :: cs) then some ([], cs.drop 1)
    else if c = '\n' then none
    else
      match scanStrong cs with
      | some (content, rest) => some (c :: content, rest)
      | none => none

/-- Matcher for substitution 5: lazy double-star emphasis. -/
def strongMatch (l : List Char) : Option (List Char × List Char) :=
  if startsStars2 l then
    match scanStrong (l.drop 2) with
    | some (content, rest) =>
      some ("<strong>".data ++ content ++ "</strong>".data, rest)
    | none => none
  else none

/-- Lazy scan of the emphasis body: non-newline characters up to the next
star. -/
def scanEm : List Char → Option (List Char × List Char)
  | [] => none
  | c :: cs =>
    if c = '*' then some ([], cs)
    else if c = '\n' then none
    else
      match scanEm cs with
      | some (content, rest) => some (c :: content, rest)
      | none => none

/-- Matcher for substitution 6: lazy single-star emphasis. -/
def emMatch (l : List Char) : Option (List Char × List Char) :=
  match l with
  | c :: cs =>
    if c = '*' then
      match scanEm cs with
      | some (content, rest) => some ("<em>".data ++ content ++ "</em>".data, rest)
      | none => none
    else none
  | [] => none

/-- Scan of the inline-code body: characters up to the next backtick. -/
def scanTick : List Char → Option (List Char × List Char)
  | [] => none
  | c :: cs =>
    if c = tickChar then some ([], cs)
    else
      match scanTick cs with
      | some (content, rest) => some (c :: content, rest)
      | none => none

/-- Opening of the inline code span. -/
def codeSpanOpenTag : String := "<code class=\"bg-gray-100 px-1 rounded\">"

/-- Matcher for substitution 7: a backtick, one or more non-backtick
characters, a backtick. -/
def codeSpanMatch (l : List Char) : Option (List Char × List Char) :=
  match l with
  | c :: cs =>
    if c = tickChar then
      match scanTick cs with
      | some ([], _) => none
      | some (content, rest) =>
        some (codeSpanOpenTag.data ++ content ++ "</code>".data, rest)
      | none => none
    else none
  | [] => none

/-- Matcher for substitution 8: a double newline becomes a double break. -/
def brMatch (l : List Char) : Option (List Char × List Char) :=
  match l with
  | a :: b :: rest =>
    if a = '\n' ∧ b = '\n' then some ("<br/><br/>".data, rest) else none
  | _ => none

/-- Run one substitution over the whole input. -/
def applyPass (m : List Char → Option (List Char × List Char))
    (l : List Char) : List Char :=
  gReplace m l.length l

/-- Substitutions 2-8 of `renderMarkdown`, in source order, applied after
the code-fence substitution. -/
def afterFencePasses (l : List Char) : List Char :=
  applyPass brMatch
    (applyPass codeSpanMatch
      (applyPass emMatch
        (applyPass strongMatch
          (headingPass "### ".data h3OpenTag.data h3CloseTag.data
            (headingPass "## ".data h2OpenTag.data h2CloseTag.data
              (headingPass "# ".data h1OpenTag.data h1CloseTag.data l))))))

/-- `renderMarkdown` from the source: the eight substitutions in order,
code fences first. -/
def renderMarkdown (md : String) : String :=
  String.mk (afterFencePasses (applyPass fenceMatch md.data))

/- ### Helper lemmas about the escaping pass -/

theorem mem_gReplace_lit (pat rep : List Char) (c : Char) :
    ∀ (fuel : Nat) (l : List Char),
      c ∈ gReplace (litMatch pat rep) fuel l → c ∈ rep ∨ c ∈ l := by
  intro fuel
  induction fuel with
  | zero =>
    intro l h
    cases l with
    | nil => simp [gReplace] at h
    | cons a as => exact Or.inr h
  | succ n ih =>
    intro l h
    cases l with
    | nil => simp [gReplace] at h
    | cons a as =>
      simp only [gReplace, litMatch] at h
      by_cases hm : listHasPre pat (a :: as) = true
      · rw [if_pos hm] at h
        rcases List.mem_append.mp h with h | h
        · exact Or.inl h
        · rcases ih _ h with h | h
          · exact Or.inl h
          · exact Or.inr (List.mem_of_mem_drop h)
      · rw [if_neg hm] at h
        rcases List.mem_cons.mp h with h | h
        · exact Or.inr (h ▸ List.mem_cons_self a as)
        · rcases ih as h with h | h
          · exact Or.inl h
          · exact Or.inr (List.mem_cons_of_mem a h)

theorem not_mem_gReplace_single (p : Char) (rep : List Char) (hp : p ∉ rep) :
    ∀ (fuel : Nat) (l : List Char), l.length ≤ fuel →
      p ∉ gReplace (litMatch [p] rep) fuel l := by
  intro fuel
  induction fuel with
  | zero =>
    intro l hl
    have : l = [] := List.length_eq_zero.mp (Nat.le_zero.mp hl)
    subst this
    simp [gReplace]
  | succ n ih =>
    intro l hl h
    cases l with
    | nil => simp [gReplace] at h
    | cons a as =>
      simp only [gReplace, litMatch] at h
      by_cases ha : a = p
      · subst ha
        have hm : listHasPre [a] (a :: as) = true := by simp [listHasPre]
        rw [if_pos hm] at h
        rcases List.mem_append.mp h with h | h
        · exact hp h
        · have has : as.length ≤ n := Nat.le_of_succ_le_succ (by simpa using hl)
          exact ih ((a :: as).drop 1) (by simpa using has) h
      · have hm : listHasPre [p] (a :: as) = false := by
          simp [listHasPre]
          exact fun he => absurd he.symm ha
        rw [if_neg (by simp [hm])] at h
        rcases List.mem_cons.mp h with h | h
        · exact ha h.symm
        · have has : as.length ≤ n := Nat.le_of_succ_le_succ (by simpa using hl)
          exact ih as has h

theorem escapeHtmlChars_no_raw_brackets (l : List Char) :
    '<' ∉ escapeHtmlChars l ∧ '>' ∉ escapeHtmlChars l := by
  unfold escapeHtmlChars
  constructor
  · intro h
    rcases mem_gReplace_lit ['>'] "&gt;".data '<' _ _ h with h | h
    · exact absurd h (by decide)
    · exact not_mem_gReplace_single '<' "&lt;".data (by decide) _ _ le_rfl h
  · exact not_mem_gReplace_single '>' "&gt;".data (by decide) _ _ le_rfl

/- ### Claim theorems: markdown renderer -/

/-- The script-injection example of the spec. -/
def mdScriptExample : String := "```\n<script>alert(1)</script>\n```"

/-- C3: the escape output never contains a raw angle bracket, the fence
substitution embeds exactly the HTML-escaped body in the code container,
and the script example renders with escaped entities and no literal
script tag. -/
theorem c3_fence_escaped (code rest : List Char)
    (h : findClose (code ++ tickChar :: tickChar :: tickChar :: rest)
        = some (code, rest)) :
    (escapeHtmlChars code).all (fun c => !(c == '<') && !(c == '>')) = true ∧
    fenceMatch (tickChar :: tickChar :: tickChar :: '\n' ::
        (code ++ tickChar :: tickChar :: tickChar :: rest))
      = some (preOpenTag.data ++ escapeHtmlChars code ++ preCloseTag.data, rest) ∧
    containsSub (renderMarkdown mdScriptExample) "&lt;script&gt;" = true ∧
    containsSub (renderMarkdown mdScriptExample) "&lt;/script&gt;" = true ∧
    containsSub (renderMarkdown mdScriptExample) "<script" = false := by
  have hall : (escapeHtmlChars code).all
      (fun c => !(c == '<') && !(c == '>')) = true := by
    rw [List.all_eq_true]
    intro c hc
    have h1 := (escapeHtmlChars_no_raw_brackets code).1
    have h2 := (escapeHtmlChars_no_raw_brackets code).2
    have hne1 : c ≠ '<' := fun he => h1 (he ▸ hc)
    have hne2 : c ≠ '>' := fun he => h2 (he ▸ hc)
    simp [hne1, hne2]
  have hw : isWordChar '\n' = false := by decide
  have hfence : fenceMatch (tickChar :: tickChar :: tickChar :: '\n' ::
      (code ++ tickChar :: tickChar :: tickChar :: rest))
      = some (preOpenTag.data ++ escapeHtmlChars code ++ preCloseTag.data, rest) := by
    simp [fenceMatch, startsTicks, takeWord, hw, h]
  exact ⟨hall, hfence, by decide, by decide, by decide⟩

/-- Witness for C3 at the fenced body `<b>`. -/
theorem c3_fence_escaped_witness :
    (escapeHtmlChars ['<', 'b', '>']).all
        (fun c => !(c == '<') && !(c == '>')) = true ∧
    fenceMatch (tickChar :: tickChar :: tickChar :: '\n' ::
        (['<', 'b', '>'] ++ tickChar :: tickChar :: tickChar :: []))
      = some (preOpenTag.data ++ escapeHtmlChars ['<', 'b', '>']
          ++ preCloseTag.data, []) ∧
    containsSub (renderMarkdown mdScriptExample) "&lt;script&gt;" = true ∧
    containsSub (renderMarkdown mdScriptExample) "&lt;/script&gt;" = true ∧
    containsSub (renderMarkdown mdScriptExample) "<script" = false :=
  c3_fence_escaped ['<', 'b', '>'] [] (by decide)

/-- A single-fence source whose body contains a blank line. -/
def mdBlankFence : String := "```\na\n\nb\n```"

/-- C4 is false as stated: rendering a fence whose body contains a blank
line does not leave the escaped body untouched — the paragraph-break
substitution rewrites the content inside the code container. -/
theorem c4_counterexample :
    renderMarkdown mdBlankFence
        ≠ String.mk (preOpenTag.data ++ escapeHtmlChars "a\n\nb\n".data
            ++ preCloseTag.data) ∧
    containsSub (renderMarkdown mdBlankFence) "<code>a<br/><br/>b" = true :=
  ⟨by decide, by decide⟩

/-- C4 amended: the code-fence substitution is applied first, before the
heading, emphasis, inline-code and paragraph-break substitutions; however
fenced content containing the later substitutions' markers is still
rewritten by them — a blank line inside a fence becomes a paragraph
break. -/
theorem c4_order_of_passes :
    (∀ md : String, renderMarkdown md
        = String.mk (afterFencePasses (applyPass fenceMatch md.data))) ∧
    renderMarkdown mdBlankFence
      = String.mk (preOpenTag.data ++ "a<br/><br/>b\n".data
          ++ preCloseTag.data) ∧
    containsSub (renderMarkdown mdBlankFence) "<br/><br/>" = true :=
  ⟨fun md => rfl, by decide, by decide⟩
